import Mathlib

/-
  Shallow embedding of the lightrary crate (discovery + authentication +
  key provisioning for smart-lighting bridges), translated from:
    src/resources/bridge.rs, src/discovery.rs, src/error.rs,
    src/session.rs, src/resources/device.rs
  Network effects (HTTP transport, mDNS subsystem, JSON decoding of wire
  bodies) are modelled as explicit environment records passed to the
  operations; every other step of each operation is translated directly
  from the source.
-/

namespace Lightrary

/-- An IPv4 address, four octets, mirroring std::net::Ipv4Addr. -/
structure Ipv4Addr where
  o1 : Nat
  o2 : Nat
  o3 : Nat
  o4 : Nat
deriving DecidableEq, Repr

/-- Dotted-quad rendering of an IPv4 address, as Display in Rust. -/
def Ipv4Addr.render (ip : Ipv4Addr) : String :=
  toString ip.o1 ++ "." ++ toString ip.o2 ++ "." ++ toString ip.o3 ++ "." ++ toString ip.o4

/-- An IPv6 address, mirroring std::net::Ipv6Addr; carried opaquely. -/
structure Ipv6Addr where
  segments : List Nat
deriving DecidableEq, Repr

/-- Wire-level key-issuance error body, from src/error.rs GenKeyError. -/
structure GenKeyError where
  t : Int
  address : String
  description : String
deriving DecidableEq, Repr

/-- Wire-level key-issuance success body, from src/error.rs GenKeySuccess.
None of the fields of the device response are captured: the Rust struct is
empty. -/
structure GenKeySuccess where
deriving DecidableEq, Repr

/-- One element of the decoded key-issuance response array, from
src/error.rs GenKeyResult. -/
inductive GenKeyResult where
  | success (s : GenKeySuccess)
  | error (e : GenKeyError)
deriving DecidableEq, Repr

/-- The crate error type, from src/error.rs Error. Transport, mDNS and
address-parse errors carry an opaque message. -/
inductive Error where
  | reqwest (msg : String)
  | mdns (msg : String)
  | addrParse (msg : String)
  | genKey (e : GenKeyError)
deriving DecidableEq, Repr

/-- An unauthenticated device handle, from src/resources/bridge.rs
UnauthBridge. -/
structure UnauthBridge where
  id : Option String
  ip : Ipv4Addr
  port : Nat
deriving DecidableEq, Repr

/-- An ordered set of unauthenticated device handles, from
src/resources/bridge.rs UnauthBridges (a newtype over Vec). -/
structure UnauthBridges where
  devices : List UnauthBridge
deriving DecidableEq, Repr

/-- Bridge configuration snapshot, from src/resources/bridge.rs
BridgeConfig. -/
structure BridgeConfig where
  name : String
  datastoreversion : String
  swversion : String
  apiversion : String
  mac : String
  bridgeid : String
  factorynew : Bool
  replacebridgeid : Option String
  modelid : String
  starterkitid : Option String
deriving DecidableEq, Repr

/-- A transport session, from src/session.rs Session: a reqwest Client
built with https_only(true) and danger_accept_invalid_certs(true). -/
structure Session where
  httpsOnly : Bool
  dangerAcceptInvalidCerts : Bool
deriving DecidableEq, Repr

/-- Session::new from src/session.rs: building the client is the only
fallible step and is environment-dependent, so the possible build error is
taken as a parameter; on success the client configuration is fixed. -/
def Session.new (buildErr : Option Error) : Except Error Session :=
  match buildErr with
  | some e => .error e
  | none => .ok { httpsOnly := true, dangerAcceptInvalidCerts := true }

/-- An HTTP response body, opaque to the embedding; decoding it is part of
the environment. -/
structure Response where
  body : String
deriving DecidableEq, Repr

/-- An authenticated device handle, from src/resources/bridge.rs Bridge. -/
structure Bridge where
  id : Option String
  ip : Ipv4Addr
  port : Nat
  app_key : Option String
  session : Session
  config : BridgeConfig
deriving DecidableEq, Repr

/-- An ordered set of authenticated device handles, from
src/resources/bridge.rs Bridges (a newtype over Vec). -/
structure Bridges where
  devices : List Bridge
deriving DecidableEq, Repr

/-- A failed authentication, from src/error.rs AuthFailed: the original
handle paired with the error. -/
structure AuthFailed where
  bridge : UnauthBridge
  err : Error
deriving DecidableEq, Repr

/-- Batch authentication result, from src/error.rs AuthResults. -/
structure AuthResults where
  success : Bridges
  failed : List AuthFailed
deriving DecidableEq, Repr

/-- The config URL built in bridge.rs: format https://ip/api/0/config. -/
def configUrl (ip : Ipv4Addr) : String :=
  "https://" ++ ip.render ++ "/api/0/config"

/-- Environment for one authentication attempt: the outcome of the
session build, of sending a GET to a URL, and of decoding a response body
as BridgeConfig. These are the three network-dependent steps of
UnauthBridge::auth and of each iteration of UnauthBridges::auth. -/
structure NetEnv where
  buildErr : Option Error
  sendResult : Session → String → Except Error Response
  decodeConfig : Response → Except Error BridgeConfig

/-- UnauthBridge::auth from src/resources/bridge.rs lines 84-110: build a
session, GET the config resource, decode; any failure returns the original
handle paired with the error, success builds a Bridge carrying over id, ip
and port with app_key None. -/
def UnauthBridge.auth (self : UnauthBridge) (env : NetEnv) :
    Except (UnauthBridge × Error) Bridge :=
  match Session.new env.buildErr with
  | .error e => .error (self, e)
  | .ok session =>
    match env.sendResult session (configUrl self.ip) with
    | .error e => .error (self, e)
    | .ok res =>
      match env.decodeConfig res with
      | .error e => .error (self, e)
      | .ok config =>
        .ok { id := self.id, ip := self.ip, port := self.port,
              app_key := none, session := session, config := config }

/-- Whether the three steps of one authentication attempt all succeed for
a given device under a given environment. -/
def NetEnv.succeeds (env : NetEnv) (b : UnauthBridge) : Bool :=
  match Session.new env.buildErr with
  | .error _ => false
  | .ok session =>
    match env.sendResult session (configUrl b.ip) with
    | .error _ => false
    | .ok res =>
      match env.decodeConfig res with
      | .error _ => false
      | .ok _ => true

/-- Loop body of UnauthBridges::auth from src/resources/bridge.rs lines
16-64, as a recursion over the device list; the environment is indexed by
the iteration number since each iteration builds a fresh session and
issues its own request. The source pushes each outcome at the back of the
corresponding vector in iteration order, which the cons onto the
recursively computed tail reproduces. -/
def UnauthBridges.authGo (env : Nat → NetEnv) : List UnauthBridge → AuthResults
  | [] => { success := ⟨[]⟩, failed := [] }
  | bridge :: rest =>
    let r := UnauthBridges.authGo (fun i => env (i + 1)) rest
    match Session.new (env 0).buildErr with
    | .error e => { r with failed := ⟨bridge, e⟩ :: r.failed }
    | .ok session =>
      match (env 0).sendResult session (configUrl bridge.ip) with
      | .error e => { r with failed := ⟨bridge, e⟩ :: r.failed }
      | .ok res =>
        match (env 0).decodeConfig res with
        | .error e => { r with failed := ⟨bridge, e⟩ :: r.failed }
        | .ok config =>
          let b : Bridge :=
            { id := bridge.id, ip := bridge.ip, port := bridge.port,
              app_key := none, session := session, config := config }
          { r with success := ⟨b :: r.success.devices⟩ }

/-- UnauthBridges::auth from src/resources/bridge.rs lines 16-64. -/
def UnauthBridges.auth (self : UnauthBridges) (env : Nat → NetEnv) : AuthResults :=
  UnauthBridges.authGo env self.devices

/-- Statement-level projection: the identity fields a Bridge carries over
from the UnauthBridge it was authenticated from. -/
def Bridge.toUnauth (b : Bridge) : UnauthBridge :=
  { id := b.id, ip := b.ip, port := b.port }

/-- Statement-level helper: the sublist of elements whose position and
value satisfy a predicate, in input order. -/
def selectWhere {α : Type} (p : Nat → α → Bool) : List α → List α
  | [] => []
  | a :: rest =>
    if p 0 a then a :: selectWhere (fun i x => p (i + 1) x) rest
    else selectWhere (fun i x => p (i + 1) x) rest

/-- Bridges::into_singular from src/resources/bridge.rs lines 132-134:
the body is Vec::remove(0). On an empty vector remove(0) is an
out-of-bounds panic, modelled as none; otherwise the first element is
returned and the remaining elements are dropped. -/
def Bridges.into_singular (self : Bridges) : Option Bridge :=
  match self.devices with
  | [] => none
  | b :: _ => some b

/-- A DNS record kind from the mdns crate, restricted to what
to_ip_addr in src/discovery.rs inspects: A, AAAA, or anything else. -/
inductive RecordKind where
  | A (addr : Ipv4Addr)
  | AAAA (addr : Ipv6Addr)
  | other
deriving DecidableEq, Repr

/-- A DNS record as consumed by to_ip_addr. -/
structure Record where
  kind : RecordKind
deriving DecidableEq, Repr

/-- An IP address, mirroring std::net::IpAddr. -/
inductive IpAddr where
  | V4 (ip : Ipv4Addr)
  | V6 (ip : Ipv6Addr)
deriving DecidableEq, Repr

/-- to_ip_addr from src/discovery.rs lines 119-125: A records become V4
addresses, AAAA records become V6 addresses, everything else is dropped. -/
def to_ip_addr (record : Record) : Option IpAddr :=
  match record.kind with
  | .A addr => some (.V4 addr)
  | .AAAA addr => some (.V6 addr)
  | .other => none

/-- One mDNS response batch: the records it carries. -/
structure MdnsResponse where
  records : List Record
deriving DecidableEq, Repr

/-- Environment for one local-multicast discovery call: the outcome of
starting the mdns subsystem (the fallible mdns discover-all call), and
the first item yielded by the listen stream within the bounded wait
window, if any. Mdns::discover consumes only this first item. -/
structure MdnsEnv where
  subsys : Except Error Unit
  first : Option (Except Error MdnsResponse)

/-- Result of a discovery call that can also abort the process: the
source reaches an unconditional panic on an IPv6 first address. -/
inductive MdnsOutcome where
  | panicked (msg : String)
  | err (e : Error)
  | ok (bridges : UnauthBridges)
deriving DecidableEq, Repr

/-- The Mdns discoverer from src/discovery.rs: a newtype holding an
UnauthBridges value that discover never reads. -/
structure Mdns where
  held : UnauthBridges
deriving DecidableEq, Repr

/-- Mdns::discover from src/discovery.rs lines 91-116: start the mdns
subsystem, take the first stream item; no item yields the empty set, a
stream error is returned as a typed error, and for a response the first
A or AAAA address found among its records is inspected: an IPv4 address
is pushed as a device with port 443 and no id, an IPv6 address reaches
the unreachable-arm panic, and no address leaves the set empty. -/
def Mdns.discover (_self : Mdns) (env : MdnsEnv) : MdnsOutcome :=
  match env.subsys with
  | .error e => .err e
  | .ok _ =>
    match env.first with
    | none => .ok ⟨[]⟩
    | some (.error e) => .err e
    | some (.ok response) =>
      match (response.records.filterMap to_ip_addr).head? with
      | none => .ok ⟨[]⟩
      | some (.V4 ip) => .ok ⟨[{ id := none, ip := ip, port := 443 }]⟩
      | some (.V6 _) => .panicked "ipv6 not yet supported."

/-- The Manual discoverer from src/discovery.rs: wraps a caller-supplied
IPv4 address. -/
structure Manual where
  ip : Ipv4Addr
deriving DecidableEq, Repr

/-- Manual::discover from src/discovery.rs lines 181-187: builds the one
device directly from the stored address; no environment parameter is
taken because the source performs no network interaction. -/
def Manual.discover (self : Manual) : Except Error UnauthBridge :=
  .ok { id := none, ip := self.ip, port := 443 }

/-- DiscoveryBroker from src/discovery.rs: binds exactly one discoverer. -/
structure DiscoveryBroker (D : Type) where
  discoverer : D
deriving DecidableEq, Repr

/-- DiscoveryBroker::manual from src/discovery.rs lines 243-247. -/
def DiscoveryBroker.manual (ip : Ipv4Addr) : DiscoveryBroker Manual :=
  { discoverer := { ip := ip } }

/-- DiscoveryBroker::discover from src/discovery.rs lines 213-215,
instantiated at the Manual discoverer: delegates unchanged. -/
def DiscoveryBroker.discover (self : DiscoveryBroker Manual) :
    Except Error UnauthBridge :=
  self.discoverer.discover

/-- DeviceType from src/resources/device.rs. -/
structure DeviceType where
  app_name : String
  instance_name : String
deriving DecidableEq, Repr

/-- The devicetype field serialized by DeviceType: the app name and the
instance name joined by a hash sign. -/
def DeviceType.devicetype (d : DeviceType) : String :=
  d.app_name ++ "#" ++ d.instance_name

/-- The key-issuance URL built in bridge.rs: format https://ip/api. -/
def apiUrl (ip : Ipv4Addr) : String :=
  "https://" ++ ip.render ++ "/api"

/-- Environment for one key-issuance call: the outcome of POSTing a
body to a URL on a session, and of decoding the response body as a
vector of GenKeyResult. -/
structure GenKeyEnv where
  sendResult : Session → String → String → Except Error Response
  decodeResults : Response → Except Error (List GenKeyResult)

/-- Result of a key-issuance call that can also abort the process: the
source indexes element 0 of the decoded vector unconditionally. -/
inductive GenKeyOutcome where
  | panicked (msg : String)
  | err (e : Error)
  | ok (bridge : Bridge) (key : String)
deriving DecidableEq, Repr

/-- Bridge::gen_key from src/resources/bridge.rs lines 167-200: POST the
DeviceType body to the api URL, decode the response as a vector of
GenKeyResult and index element 0 (an out-of-bounds panic when the vector
is empty, modelled as the panicked outcome). A success element binds its
payload unused and produces String::new() as the key; an error element
is cloned and returned as the genKey error. The bridge is rebuilt with
app_key set to that key and every other field taken from self, and the
key is returned alongside it. -/
def Bridge.gen_key (self : Bridge) (app_name instance_name : String)
    (env : GenKeyEnv) : GenKeyOutcome :=
  match env.sendResult self.session (apiUrl self.ip)
      (DeviceType.devicetype { app_name := app_name, instance_name := instance_name }) with
  | .error e => .err e
  | .ok res =>
    match env.decodeResults res with
    | .error e => .err e
    | .ok results =>
      match results with
      | [] => .panicked "index out of bounds: the len is 0 but the index is 0"
      | first :: _ =>
        match first with
        | .success _s =>
          let app_key := ""
          .ok { self with app_key := some app_key } app_key
        | .error e => .err (Error.genKey e)

/-- Concrete values used by the witness theorems. -/
def sampleIp : Ipv4Addr := ⟨192, 168, 50, 173⟩

/-- A sample unauthenticated device. -/
def sampleDevice : UnauthBridge := { id := none, ip := sampleIp, port := 443 }

/-- A second sample unauthenticated device. -/
def sampleDevice2 : UnauthBridge := { id := some "B2", ip := ⟨10, 0, 0, 7⟩, port := 443 }

/-- A sample configuration snapshot. -/
def sampleConfig : BridgeConfig :=
  { name := "bridge", datastoreversion := "159", swversion := "1955082050",
    apiversion := "1.55.0", mac := "ec:b5:fa:00:00:00", bridgeid := "ECB5FAFFFE000000",
    factorynew := false, replacebridgeid := none, modelid := "BSB002",
    starterkitid := none }

/-- An environment in which every authentication step succeeds. -/
def okNetEnv : NetEnv :=
  { buildErr := none,
    sendResult := fun _ _ => .ok { body := "config-body" },
    decodeConfig := fun _ => .ok sampleConfig }

/-- An environment in which the session build fails. -/
def failNetEnv : NetEnv :=
  { buildErr := some (.reqwest "connection refused"),
    sendResult := fun _ _ => .error (.reqwest "connection refused"),
    decodeConfig := fun _ => .error (.reqwest "decode") }

/-- The constantly failing per-iteration environment. -/
def constFailEnv : Nat → NetEnv := fun _ => failNetEnv

/-- The bridge produced by authenticating sampleDevice under okNetEnv. -/
def sampleAuthedBridge : Bridge :=
  { id := none, ip := sampleIp, port := 443, app_key := none,
    session := { httpsOnly := true, dangerAcceptInvalidCerts := true },
    config := sampleConfig }

/-- A sample HTTP response. -/
def sampleResponse : Response := { body := "gen-key-body" }

/-- A key-issuance environment whose decoded response is a singleton
success element. -/
def genKeySuccessEnv : GenKeyEnv :=
  { sendResult := fun _ _ _ => .ok sampleResponse,
    decodeResults := fun _ => .ok [GenKeyResult.success GenKeySuccess.mk] }

/-- A key-issuance environment whose decoded response is the empty
array. -/
def genKeyEmptyEnv : GenKeyEnv :=
  { sendResult := fun _ _ _ => .ok sampleResponse,
    decodeResults := fun _ => .ok [] }

/-- A sample IPv6 address. -/
def v6sample : Ipv6Addr := ⟨[8193, 3512, 0, 0, 0, 0, 0, 1]⟩

/-- An mDNS response batch whose only record is an AAAA record. -/
def v6Response : MdnsResponse := ⟨[⟨RecordKind.AAAA v6sample⟩]⟩

/-- An mDNS environment whose first stream item is the AAAA response. -/
def v6Env : MdnsEnv := { subsys := .ok (), first := some (.ok v6Response) }

/-- The Mdns discoverer as constructed by DiscoveryBroker::mdns. -/
def sampleMdns : Mdns := ⟨⟨[]⟩⟩

/-- Projecting the identity fields out of a freshly authenticated bridge
recovers the device it was built from. -/
theorem toUnauth_mk (b : UnauthBridge) (k : Option String) (s : Session)
    (c : BridgeConfig) :
    Bridge.toUnauth (Bridge.mk b.id b.ip b.port k s c) = b := rfl

/-- The two complementary selections of a list have lengths summing to
the length of the list. -/
theorem selectWhere_length_add {α : Type} (xs : List α) :
    ∀ p : Nat → α → Bool,
    (selectWhere p xs).length + (selectWhere (fun i a => !(p i a)) xs).length
      = xs.length := by
  induction xs with
  | nil => intro _; rfl
  | cons a rest ih =>
    intro p
    have h := ih (fun i x => p (i + 1) x)
    cases hp : p 0 a with
    | true => simp [selectWhere, hp]; omega
    | false => simp [selectWhere, hp]; omega

/-- The two complementary selections of a list account together for every
occurrence of every element. -/
theorem selectWhere_count_add {α : Type} [DecidableEq α] (xs : List α) (y : α) :
    ∀ p : Nat → α → Bool,
    (selectWhere p xs).count y
      + (selectWhere (fun i a => !(p i a)) xs).count y = xs.count y := by
  induction xs with
  | nil => intro _; rfl
  | cons a rest ih =>
    intro p
    have h := ih (fun i x => p (i + 1) x)
    cases hp : p 0 a with
    | true => simp [selectWhere, List.count_cons, hp]; omega
    | false => simp [selectWhere, List.count_cons, hp]; omega

/-- Characterization of the batch-authentication loop: the successes,
projected back to their identity fields, are exactly the devices whose
iteration succeeded, in input order, and the failures carry exactly the
devices whose iteration failed, in input order. -/
theorem authGo_spec (xs : List UnauthBridge) : ∀ env : Nat → NetEnv,
    (UnauthBridges.authGo env xs).success.devices.map Bridge.toUnauth
        = selectWhere (fun i b => (env i).succeeds b) xs
    ∧ (UnauthBridges.authGo env xs).failed.map AuthFailed.bridge
        = selectWhere (fun i b => !((env i).succeeds b)) xs := by
  induction xs with
  | nil => intro _; exact ⟨rfl, rfl⟩
  | cons b rest ih =>
    intro env
    obtain ⟨ihs, ihf⟩ := ih (fun i => env (i + 1))
    cases hs : Session.new (env 0).buildErr with
    | error e =>
      constructor
      · simp [UnauthBridges.authGo, selectWhere, NetEnv.succeeds, hs, ihs, ihf]
      · simp [UnauthBridges.authGo, selectWhere, NetEnv.succeeds, hs, ihs, ihf]
    | ok session =>
      cases hg : (env 0).sendResult session (configUrl b.ip) with
      | error e =>
        constructor
        · simp [UnauthBridges.authGo, selectWhere, NetEnv.succeeds, hs, hg, ihs, ihf]
        · simp [UnauthBridges.authGo, selectWhere, NetEnv.succeeds, hs, hg, ihs, ihf]
      | ok res =>
        cases hd : (env 0).decodeConfig res with
        | error e =>
          constructor
          · simp [UnauthBridges.authGo, selectWhere, NetEnv.succeeds, hs, hg, hd,
              ihs, ihf]
          · simp [UnauthBridges.authGo, selectWhere, NetEnv.succeeds, hs, hg, hd,
              ihs, ihf]
        | ok config =>
          constructor
          · simp [UnauthBridges.authGo, selectWhere, NetEnv.succeeds, hs, hg, hd,
              ihs, ihf, toUnauth_mk]
          · simp [UnauthBridges.authGo, selectWhere, NetEnv.succeeds, hs, hg, hd,
              ihs, ihf]

/-- C2: batch authentication partitions its input exactly. For every
(possibly empty) input set and every per-iteration environment, the
successes projected to their identity fields are the succeeding input
devices in input order, the failures carry the failing input devices in
input order, the two lengths sum to the input length, and every device
occurrence lands in exactly one of the two outputs. -/
theorem batch_auth_partitions_input (bs : UnauthBridges) (env : Nat → NetEnv) :
    ((bs.auth env).success.devices.length + (bs.auth env).failed.length
        = bs.devices.length)
    ∧ ((bs.auth env).success.devices.map Bridge.toUnauth
        = selectWhere (fun i b => (env i).succeeds b) bs.devices)
    ∧ ((bs.auth env).failed.map AuthFailed.bridge
        = selectWhere (fun i b => !((env i).succeeds b)) bs.devices)
    ∧ ∀ b : UnauthBridge,
        ((bs.auth env).success.devices.map Bridge.toUnauth).count b
          + ((bs.auth env).failed.map AuthFailed.bridge).count b
          = bs.devices.count b := by
  obtain ⟨hs, hf⟩ := authGo_spec bs.devices env
  refine ⟨?_, hs, hf, ?_⟩
  · have hlen := selectWhere_length_add bs.devices (fun i b => (env i).succeeds b)
    rw [← hs, ← hf] at hlen
    simpa using hlen
  · intro b
    have hcount := selectWhere_count_add bs.devices b
      (fun i b => (env i).succeeds b)
    rw [← hs, ← hf] at hcount
    exact hcount

/-- C3: whenever single-device authentication fails, at whichever step,
the device handed back alongside the error is field-for-field identical
to the input device. -/
theorem single_auth_failure_preserves_device (b : UnauthBridge) (env : NetEnv)
    (b' : UnauthBridge) (e : Error)
    (h : b.auth env = Except.error (b', e)) :
    b'.id = b.id ∧ b'.ip = b.ip ∧ b'.port = b.port := by
  unfold UnauthBridge.auth at h
  split at h
  · simp only [Except.error.injEq, Prod.mk.injEq] at h
    obtain ⟨h1, -⟩ := h
    subst h1
    exact ⟨rfl, rfl, rfl⟩
  · split at h
    · simp only [Except.error.injEq, Prod.mk.injEq] at h
      obtain ⟨h1, -⟩ := h
      subst h1
      exact ⟨rfl, rfl, rfl⟩
    · split at h
      · simp only [Except.error.injEq, Prod.mk.injEq] at h
        obtain ⟨h1, -⟩ := h
        subst h1
        exact ⟨rfl, rfl, rfl⟩
      · simp at h

/-- Witness for C3: a concrete device failing at the session-build step
comes back unchanged. -/
theorem single_auth_failure_preserves_device_witness :
    sampleDevice.auth failNetEnv
        = Except.error (sampleDevice, Error.reqwest "connection refused")
    ∧ (sampleDevice.id = sampleDevice.id ∧ sampleDevice.ip = sampleDevice.ip
        ∧ sampleDevice.port = sampleDevice.port) :=
  ⟨rfl, single_auth_failure_preserves_device sampleDevice failNetEnv sampleDevice
      (Error.reqwest "connection refused") rfl⟩

/-- C4: batch authentication never short-circuits. When the first device
of the input fails, its failure is recorded at the head of the failures
sequence and the remaining devices are processed exactly as they would
be on their own; the operation still returns an AuthResults value. -/
theorem batch_auth_never_short_circuits (b : UnauthBridge)
    (rest : List UnauthBridge) (env : Nat → NetEnv)
    (h : (env 0).succeeds b = false) :
    ((UnauthBridges.mk (b :: rest)).auth env).failed.map AuthFailed.bridge
        = b :: (((UnauthBridges.mk rest).auth
            (fun i => env (i + 1))).failed.map AuthFailed.bridge)
    ∧ ((UnauthBridges.mk (b :: rest)).auth env).success
        = ((UnauthBridges.mk rest).auth (fun i => env (i + 1))).success := by
  unfold NetEnv.succeeds at h
  cases hs : Session.new (env 0).buildErr with
  | error e =>
    constructor <;>
      simp [UnauthBridges.auth, UnauthBridges.authGo, hs]
  | ok session =>
    simp only [hs] at h
    cases hg : (env 0).sendResult session (configUrl b.ip) with
    | error e =>
      constructor <;>
        simp [UnauthBridges.auth, UnauthBridges.authGo, hs, hg]
    | ok res =>
      simp only [hg] at h
      cases hd : (env 0).decodeConfig res with
      | error e =>
        constructor <;>
          simp [UnauthBridges.auth, UnauthBridges.authGo, hs, hg, hd]
      | ok config =>
        simp only [hd] at h
        exact Bool.noConfusion h

/-- Witness for C4: with a concrete two-device input whose first device
fails to authenticate, the second is still processed. -/
theorem batch_auth_never_short_circuits_witness :
    (constFailEnv 0).succeeds sampleDevice = false
    ∧ (((UnauthBridges.mk [sampleDevice, sampleDevice2]).auth
            constFailEnv).failed.map AuthFailed.bridge
        = sampleDevice :: (((UnauthBridges.mk [sampleDevice2]).auth
            (fun i => constFailEnv (i + 1))).failed.map AuthFailed.bridge)
      ∧ ((UnauthBridges.mk [sampleDevice, sampleDevice2]).auth
            constFailEnv).success
        = ((UnauthBridges.mk [sampleDevice2]).auth
            (fun i => constFailEnv (i + 1))).success) :=
  ⟨rfl, batch_auth_never_short_circuits sampleDevice [sampleDevice2]
      constFailEnv rfl⟩

/-- C7: whenever single-device authentication succeeds, the resulting
bridge keeps the id, ip and port of the input device and its app_key is
absent. -/
theorem single_auth_success_carries_fields (b : UnauthBridge) (env : NetEnv)
    (br : Bridge) (h : b.auth env = Except.ok br) :
    br.id = b.id ∧ br.ip = b.ip ∧ br.port = b.port ∧ br.app_key = none := by
  unfold UnauthBridge.auth at h
  split at h
  · simp at h
  · split at h
    · simp at h
    · split at h
      · simp at h
      · simp only [Except.ok.injEq] at h
        subst h
        exact ⟨rfl, rfl, rfl, rfl⟩

/-- Witness for C7: a concrete device authenticated under an all-success
environment yields a bridge with the same identity fields and no key. -/
theorem single_auth_success_carries_fields_witness :
    sampleDevice.auth okNetEnv = Except.ok sampleAuthedBridge
    ∧ (sampleAuthedBridge.id = sampleDevice.id
        ∧ sampleAuthedBridge.ip = sampleDevice.ip
        ∧ sampleAuthedBridge.port = sampleDevice.port
        ∧ sampleAuthedBridge.app_key = none) :=
  ⟨rfl, single_auth_success_carries_fields sampleDevice okNetEnv
      sampleAuthedBridge rfl⟩

/-- C1 (code bug): for every key-issuance call whose decoded response has
a success outcome as its first element, gen_key populates app_key with
the empty string produced by String::new() and returns that empty string,
not the token issued by the device; the GenKeySuccess wire struct does
not even capture the token. The other fields of the bridge are carried
over unchanged, as the claim states. -/
theorem gen_key_success_yields_empty_key (self : Bridge) (a b : String)
    (env : GenKeyEnv) (s : GenKeySuccess) (rest : List GenKeyResult)
    (res : Response)
    (hsend : env.sendResult self.session (apiUrl self.ip)
        (DeviceType.devicetype { app_name := a, instance_name := b })
        = Except.ok res)
    (hdec : env.decodeResults res = Except.ok (GenKeyResult.success s :: rest)) :
    self.gen_key a b env = .ok { self with app_key := some "" } "" := by
  unfold Bridge.gen_key
  rw [hsend]
  simp only [hdec]

/-- Witness for C1: a concrete bridge issued a key under a success
response ends up with the empty string as its key. -/
theorem gen_key_success_yields_empty_key_witness :
    (genKeySuccessEnv.sendResult sampleAuthedBridge.session
        (apiUrl sampleAuthedBridge.ip)
        (DeviceType.devicetype { app_name := "test_app", instance_name := "yeey" })
        = Except.ok sampleResponse
      ∧ genKeySuccessEnv.decodeResults sampleResponse
        = Except.ok [GenKeyResult.success GenKeySuccess.mk])
    ∧ sampleAuthedBridge.gen_key "test_app" "yeey" genKeySuccessEnv
        = .ok { sampleAuthedBridge with app_key := some "" } "" :=
  ⟨⟨rfl, rfl⟩, gen_key_success_yields_empty_key sampleAuthedBridge "test_app"
      "yeey" genKeySuccessEnv GenKeySuccess.mk [] sampleResponse rfl rfl⟩

/-- C5 (code bug): extracting the single element of an
AuthenticatedDeviceSet with two members silently returns the first member
and drops the second instead of failing; only the empty case fails
loudly, via the out-of-bounds panic of Vec::remove(0). -/
theorem into_singular_two_devices_silently_picks_first (b1 b2 : Bridge) :
    (Bridges.mk [b1, b2]).into_singular = some b1
    ∧ (Bridges.mk []).into_singular = none :=
  ⟨rfl, rfl⟩

/-- C6 counterexample: a first response batch whose first address record
is an AAAA record drives discover into the unreachable-arm panic, so it
does not return normally. -/
theorem mdns_ipv6_first_response_panics_cex :
    sampleMdns.discover v6Env = .panicked "ipv6 not yet supported." := rfl

/-- C6 amended: local-multicast discovery never miscodes an IPv6 address;
whenever the first address found in the first response batch is IPv6,
discover aborts with the panic labelled ipv6 not yet supported instead of
returning a device set or a typed error. -/
theorem mdns_ipv6_first_address_panics (m : Mdns) (env : MdnsEnv)
    (res : MdnsResponse) (v6 : Ipv6Addr)
    (h1 : env.subsys = Except.ok ())
    (h2 : env.first = some (Except.ok res))
    (h3 : (res.records.filterMap to_ip_addr).head? = some (IpAddr.V6 v6)) :
    m.discover env = .panicked "ipv6 not yet supported." := by
  unfold Mdns.discover
  simp only [h1, h2, h3]

/-- Witness for the amended C6: the concrete AAAA-only response batch
makes discover panic. -/
theorem mdns_ipv6_first_address_panics_witness :
    (v6Env.subsys = Except.ok ()
      ∧ v6Env.first = some (Except.ok v6Response)
      ∧ (v6Response.records.filterMap to_ip_addr).head?
          = some (IpAddr.V6 v6sample))
    ∧ sampleMdns.discover v6Env = .panicked "ipv6 not yet supported." :=
  ⟨⟨rfl, rfl, rfl⟩, mdns_ipv6_first_address_panics sampleMdns v6Env v6Response
      v6sample rfl rfl rfl⟩

/-- C8: manual discovery through the broker is deterministic and free of
network effects: for every constructed address it succeeds with exactly
one device carrying that address, port 443 and no id. The embedding of
Manual::discover takes no environment because the source performs no
network interaction. -/
theorem manual_discovery_deterministic (ip : Ipv4Addr) :
    (DiscoveryBroker.manual ip).discover
      = Except.ok { id := none, ip := ip, port := 443 } := rfl

/-- C9: a local-multicast discovery call whose stream yields nothing
within the wait window returns the empty device set wrapped in success. -/
theorem mdns_no_response_returns_empty_set (m : Mdns) :
    m.discover { subsys := Except.ok (), first := none }
      = .ok (UnauthBridges.mk []) := rfl

/-- C10: a key-issuance call whose response body decodes as the empty
array panics with an out-of-bounds index on element 0 instead of
returning an error. -/
theorem gen_key_empty_response_indexes_out_of_bounds (self : Bridge)
    (a b : String) (env : GenKeyEnv) (res : Response)
    (hsend : env.sendResult self.session (apiUrl self.ip)
        (DeviceType.devicetype { app_name := a, instance_name := b })
        = Except.ok res)
    (hdec : env.decodeResults res = Except.ok []) :
    self.gen_key a b env
      = .panicked "index out of bounds: the len is 0 but the index is 0" := by
  unfold Bridge.gen_key
  rw [hsend]
  simp only [hdec]

/-- Witness for C10: a concrete bridge and an environment decoding to the
empty array hit the panic. -/
theorem gen_key_empty_response_indexes_out_of_bounds_witness :
    (genKeyEmptyEnv.sendResult sampleAuthedBridge.session
        (apiUrl sampleAuthedBridge.ip)
        (DeviceType.devicetype { app_name := "test_app", instance_name := "yeey" })
        = Except.ok sampleResponse
      ∧ genKeyEmptyEnv.decodeResults sampleResponse = Except.ok [])
    ∧ sampleAuthedBridge.gen_key "test_app" "yeey" genKeyEmptyEnv
      = .panicked "index out of bounds: the len is 0 but the index is 0" :=
  ⟨⟨rfl, rfl⟩, gen_key_empty_response_indexes_out_of_bounds sampleAuthedBridge
      "test_app" "yeey" genKeyEmptyEnv sampleResponse rfl rfl⟩

end Lightrary
